import Mathlib

/-!
Shallow embedding of `src/sqlite-server.py` (the initiator-mode tabserver).

The program serves a line-oriented protocol over a socket: it sends a
`HELLO` handshake, then loops, reading a command tag (`EXECUTE` /
`PREPARE`), executing SQL against sqlite, and streaming frames back.

Modelling conventions:
* a wire line is a `List Char` (the text-mode file objects use the ascii
  codec; raw incoming lines are `List Nat` byte lists which are
  ascii-decoded on read, mirroring `server.makefile(encoding='ascii')`);
* Python exceptions are an explicit `PyError` value; a function that can
  raise returns `Except PyError _`, and the emission loops additionally
  record the frames already written when an exception escapes (the
  line-buffered `server_send` has flushed them);
* the relational engine (`cursor.execute` plus row iteration) is a
  parameter `engine : String → QueryResult` giving, for each SQL text
  submitted during the session, the outcome the cursor reports.
-/

namespace SqliteServer

/-- Python exceptions that the modelled code paths can raise. -/
inductive PyError where
  /-- `TypeError` (e.g. `base64.b64encode` applied to a `str`). -/
  | typeError
  /-- `AttributeError` (e.g. `.encode` on a `bytes` object). -/
  | attributeError
  /-- `UnicodeDecodeError` from the ascii or utf-8 codecs. -/
  | unicodeDecodeError
  /-- `binascii.Error` from `base64.b64decode`. -/
  | binasciiError
  /-- `ValueError(msg)` as raised at the pagination checkpoint. -/
  | valueError (msg : String)
  /-- `StopIteration` from `next()` on an exhausted stream. -/
  | stopIteration
  deriving DecidableEq

/-- One value of a result-row column, as handed over by the sqlite3
cursor: `None`, `str`, `int`, `float` or `bytes`.  A float is carried
together with its Python `str()` rendering, which is all the program
ever uses of it. -/
inductive SqlValue where
  | vnull
  | vtext (s : String)
  | vint (i : Int)
  | vfloat (repr : String)
  | vblob (bs : List Nat)
  deriving DecidableEq

/-- One protocol frame, i.e. one line written to `server_send`:
a bare tag (`print('METADATA')`), a decimal count (`print(len(...))`,
`print(rowcount)`), or a data frame (`send_data`, which writes the
base64 of the payload bytes). -/
inductive Frame where
  | tag (t : String)
  | num (n : Int)
  | data (payload : List Nat)
  deriving DecidableEq

/-- A Python object that can be passed to `send_data`: the program's
`col_bytes` variable holds either a `str` or a `bytes`. -/
inductive PyObj where
  | pstr (s : String)
  | pbytes (bs : List Nat)
  deriving DecidableEq

/-- The outcome of `cursor.execute(query)` together with the cursor
attributes the program reads afterwards: an engine error (`sqlite3.Error`
with message `str(err)`), a row-producing result (`cursor.description`
is not `None`; column descriptors are name and declared type, `none`
when sqlite reports no type), or a mutation (`cursor.description` is
`None`, `cursor.rowcount` is reported). -/
inductive QueryResult where
  | failure (msg : String)
  | results (desc : List (String × Option String)) (rows : List (List SqlValue))
  | mutation (rowcount : Int)
  deriving DecidableEq

/-! ## Python string primitives: `str.strip`, the ascii codec -/

/-- Python `str.isspace` on the ascii characters that can occur here. -/
def pyIsSpace (c : Char) : Bool :=
  c == ' ' || c == '\t' || c == '\n' || c == '\r' || c == '\x0b' || c == '\x0c'

/-- Python `str.strip()`: removes whitespace from **both** ends. -/
def pyStrip (s : List Char) : List Char :=
  ((s.dropWhile pyIsSpace).reverse.dropWhile pyIsSpace).reverse

/-- Reading one tag: the program's `next(server_recv).strip()`
(`main`, line 112, and the pagination reply read, line 46). -/
def readTag (line : List Char) : List Char := pyStrip line

/-- The ascii codec used by `server.makefile(encoding='ascii')`: a line
of raw bytes decodes iff every byte is below 128; otherwise `next()`
raises `UnicodeDecodeError`. -/
def asciiDecodeLine (bs : List Nat) : Except PyError (List Char) :=
  if bs.all (fun b => decide (b < 128)) then
    Except.ok (bs.map Char.ofNat)
  else
    Except.error PyError.unicodeDecodeError

/-! ## Base64 (`base64.b64encode` / `base64.b64decode`) -/

/-- The standard base64 alphabet. -/
def b64Alphabet : List Char :=
  ['A','B','C','D','E','F','G','H','I','J','K','L','M',
   'N','O','P','Q','R','S','T','U','V','W','X','Y','Z',
   'a','b','c','d','e','f','g','h','i','j','k','l','m',
   'n','o','p','q','r','s','t','u','v','w','x','y','z',
   '0','1','2','3','4','5','6','7','8','9','+','/']

/-- The alphabet character of a sextet. -/
def sextetChar (s : Nat) : Char := b64Alphabet.getD s 'A'

/-- The sextet of an alphabet character (`none` off the alphabet). -/
def charSextet (c : Char) : Option Nat := b64Alphabet.findIdx? (fun a => a == c)

/-- Characters `b64decode` keeps before decoding: alphabet members and
the padding character; everything else (here: the newline) is discarded
prior to the padding check. -/
def b64KeepChar (c : Char) : Bool := (charSextet c).isSome || c == '='

/-- Byte groups to sextets (the bit-packing of `b64encode`):
three bytes yield four sextets; a trailing byte or byte pair yields
two or three sextets. -/
def b64encodeBytes : List Nat → List Nat
  | [] => []
  | [a] => [a / 4, a % 4 * 16]
  | [a, b] => [a / 4, a % 4 * 16 + b / 16, b % 16 * 4]
  | a :: b :: c :: rest =>
      a / 4 :: (a % 4 * 16 + b / 16) :: (b % 16 * 4 + c / 64) :: c % 64 ::
        b64encodeBytes rest

/-- The `=` padding appended by `b64encode`, by payload length. -/
def b64pad (n : Nat) : List Char :=
  if n % 3 = 1 then ['=', '=']
  else if n % 3 = 2 then ['=']
  else []

/-- `base64.b64encode(bs)` as the text it produces. -/
def b64encode (bs : List Nat) : List Char :=
  (b64encodeBytes bs).map sextetChar ++ b64pad bs.length

/-- Sextet groups back to bytes (the bit-unpacking of `b64decode`);
`none` on a dangling single sextet. -/
def b64decodeSextets : List Nat → Option (List Nat)
  | [] => some []
  | [_] => none
  | [s0, s1] => some [s0 * 4 + s1 / 16]
  | [s0, s1, s2] => some [s0 * 4 + s1 / 16, s1 % 16 * 16 + s2 / 4]
  | s0 :: s1 :: s2 :: s3 :: rest =>
      (b64decodeSextets rest).map
        (fun bs => (s0 * 4 + s1 / 16) :: (s1 % 16 * 16 + s2 / 4) :: (s2 % 4 * 64 + s3) :: bs)

/-- `base64.b64decode(line)` with `validate=False` (the default used by
`recv_data`): characters outside the alphabet that are not `=` are
discarded, the remaining length must be a multiple of four, and the
data characters before the padding are unpacked. -/
def b64decodePy (line : List Char) : Except PyError (List Nat) :=
  if (line.filter b64KeepChar).length % 4 = 0 then
    match b64decodeSextets
        (((line.filter b64KeepChar).takeWhile (fun c => c != '=')).filterMap charSextet) with
    | some bs => Except.ok bs
    | none => Except.error PyError.binasciiError
  else
    Except.error PyError.binasciiError

/-! ## UTF-8 (`str.encode('utf-8')` / `bytes.decode('utf-8')`) -/

/-- The UTF-8 encoding of one code point. -/
def utf8EncodeChar (n : Nat) : List Nat :=
  if n < 128 then [n]
  else if n < 2048 then [192 + n / 64, 128 + n % 64]
  else if n < 65536 then [224 + n / 4096, 128 + n / 64 % 64, 128 + n % 64]
  else [240 + n / 262144, 128 + n / 4096 % 64, 128 + n / 64 % 64, 128 + n % 64]

/-- Python `s.encode('utf-8')`. -/
def utf8Encode (s : String) : List Nat :=
  (s.toList.map (fun c => utf8EncodeChar c.toNat)).flatten

/-- A UTF-8 continuation byte. -/
def utf8Cont (b : Nat) : Bool := 128 ≤ b && b < 192

/-- Python `bs.decode('utf-8')` (strict): rejects stray continuation
bytes, overlong forms, surrogates, code points above U+10FFFF and
truncated sequences; `none` models the raised `UnicodeDecodeError`. -/
def utf8DecodePy : List Nat → Option (List Char)
  | [] => some []
  | b :: rest =>
    if b < 128 then
      (utf8DecodePy rest).map (fun cs => Char.ofNat b :: cs)
    else if b < 194 then none
    else if b < 224 then
      match rest with
      | b1 :: rest1 =>
        if utf8Cont b1 then
          (utf8DecodePy rest1).map (fun cs => Char.ofNat ((b - 192) * 64 + (b1 - 128)) :: cs)
        else none
      | [] => none
    else if b < 240 then
      match rest with
      | b1 :: b2 :: rest2 =>
        if utf8Cont b1 && utf8Cont b2 && (!(b == 224) || decide (160 ≤ b1)) &&
            (decide ((b - 224) * 4096 + (b1 - 128) * 64 + (b2 - 128) < 55296) ||
              decide (57344 ≤ (b - 224) * 4096 + (b1 - 128) * 64 + (b2 - 128))) then
          (utf8DecodePy rest2).map
            (fun cs => Char.ofNat ((b - 224) * 4096 + (b1 - 128) * 64 + (b2 - 128)) :: cs)
        else none
      | _ => none
    else if b < 245 then
      match rest with
      | b1 :: b2 :: b3 :: rest3 =>
        if utf8Cont b1 && utf8Cont b2 && utf8Cont b3 &&
            (!(b == 240) || decide (144 ≤ b1)) && (!(b == 244) || decide (b1 < 144)) then
          (utf8DecodePy rest3).map
            (fun cs =>
              Char.ofNat ((b - 240) * 262144 + (b1 - 128) * 4096 + (b2 - 128) * 64 + (b3 - 128)) :: cs)
        else none
      | _ => none
    else none

/-! ## The frame codec of the program: `send_data` / `recv_data` -/

/-- `send_data(server_file, data)` (lines 12-13): the line it writes,
`base64.b64encode(data).decode('ascii')` followed by the newline that
`print` appends. -/
def send_data (data : List Nat) : List Char := b64encode data ++ ['\n']

/-- The raw bytes of a text line as they appear on the wire / in the
incoming stream (the ascii encoding of its characters). -/
def lineBytes (line : List Char) : List Nat := line.map Char.toNat

/-- The raw line of a string, newline included: shorthand for the byte
list a peer sends for a tag such as `"MORE\n"`. -/
def lineOf (s : String) : List Nat := lineBytes s.toList

/-- `recv_data(server_file)` (lines 15-17): `next` one line off the
stream (ascii-decoded by the file object), `base64.b64decode` it, then
decode the payload as UTF-8, returning the resulting `str` and the rest
of the stream. -/
def recv_data (input : List (List Nat)) : Except PyError (String × List (List Nat)) :=
  match input with
  | [] => Except.error PyError.stopIteration
  | line :: rest =>
    match asciiDecodeLine line with
    | Except.error e => Except.error e
    | Except.ok chars =>
      match b64decodePy chars with
      | Except.error e => Except.error e
      | Except.ok bs =>
        match utf8DecodePy bs with
        | none => Except.error PyError.unicodeDecodeError
        | some cs => Except.ok (String.mk cs, rest)

/-! ## Column serialization (lines 56-69) -/

/-- The `col_bytes` computed for one column value (lines 57-67).
For `None` the program assigns the *`str`* `'<null>'` (no `.encode`).
For a blob it evaluates `base64.b64encode(col).encode('utf-8')`, but
`b64encode` returns `bytes` and `bytes` has no `.encode` attribute, so
an `AttributeError` is raised before anything is produced. -/
def colBytesOf : SqlValue → Except PyError PyObj
  | SqlValue.vnull => Except.ok (PyObj.pstr "<null>")
  | SqlValue.vtext s => Except.ok (PyObj.pbytes (utf8Encode s))
  | SqlValue.vint i => Except.ok (PyObj.pbytes (utf8Encode (toString i)))
  | SqlValue.vfloat r => Except.ok (PyObj.pbytes (utf8Encode r))
  | SqlValue.vblob _ => Except.error PyError.attributeError

/-- `send_data` applied to the `col_bytes` object (line 69): for a
`bytes` payload it writes one data frame; `base64.b64encode` of a `str`
raises `TypeError`. -/
def send_data_frame : PyObj → Except PyError Frame
  | PyObj.pbytes bs => Except.ok (Frame.data bs)
  | PyObj.pstr _ => Except.error PyError.typeError

/-- Serializing one column value: compute `col_bytes`, then send it. -/
def serializeCol (col : SqlValue) : Except PyError Frame :=
  match colBytesOf col with
  | Except.error e => Except.error e
  | Except.ok obj => send_data_frame obj

/-- The inner `for col in row` loop (lines 56-69): the data frames
written for the row's columns, and the exception (if any) that
interrupted it.  Frames already written before the exception stand. -/
def serializeRow : List SqlValue → List Frame × Option PyError
  | [] => ([], none)
  | col :: restCols =>
    match serializeCol col with
    | Except.error e => ([], some e)
    | Except.ok f =>
      let r := serializeRow restCols
      (f :: r.1, r.2)

/-- All frames emitted for one row: the `ROW` tag followed by its
column data frames (lines 55-69), when serialization succeeds. -/
def rowFrames (row : List SqlValue) : List Frame :=
  Frame.tag "ROW" :: (serializeRow row).1

/-! ## Metadata emission (lines 33-38 and 89-93) -/

/-- `str(col[1] or 'DYNAMIC')`: the declared type name, with `None`
(and the falsy empty string) replaced by the literal `DYNAMIC`. -/
def renderColType : Option String → String
  | none => "DYNAMIC"
  | some t => if t = "" then "DYNAMIC" else t

/-- The `METADATA` block: the tag, the column count, then a name data
frame and a type data frame per column. -/
def metadataFrames (desc : List (String × Option String)) : List Frame :=
  Frame.tag "METADATA" :: Frame.num (desc.length : Int) ::
    desc.flatMap
      (fun col => [Frame.data (utf8Encode col.1), Frame.data (utf8Encode (renderColType col.2))])

/-! ## The row-streaming loop with pagination (lines 40-55) -/

/-- The frames emitted by an execution step, the input lines it left
unconsumed, and the exception (if any) that escaped it. -/
structure LoopOut where
  frames : List Frame
  rest : List (List Nat)
  err : Option PyError
  deriving DecidableEq

/-- The `for row in cursor` loop (lines 40-69), parameterized by the
remaining incoming lines, the current `page_row` counter and the rows
still to stream.  Every third row a `PAGE` tag is emitted and one reply
line is read: `MORE` resets the counter, `ABORT` breaks out of the
loop, anything else raises `ValueError`; an exhausted stream raises
`StopIteration` and a non-ascii reply line raises
`UnicodeDecodeError`. -/
def rowLoop (input : List (List Nat)) (pageRow : Nat) (rows : List (List SqlValue)) :
    LoopOut :=
  match rows with
  | [] => ⟨[], input, none⟩
  | row :: rest =>
    if pageRow = 3 then
      match input with
      | [] => ⟨[Frame.tag "PAGE"], [], some PyError.stopIteration⟩
      | line :: input' =>
        match asciiDecodeLine line with
        | Except.error e => ⟨[Frame.tag "PAGE"], input', some e⟩
        | Except.ok chars =>
          if readTag chars = "MORE".toList then
            let r := rowLoop input' 0 (row :: rest)
            ⟨Frame.tag "PAGE" :: r.frames, r.rest, r.err⟩
          else if readTag chars = "ABORT".toList then
            ⟨[Frame.tag "PAGE"], input', none⟩
          else
            ⟨[Frame.tag "PAGE"], input',
              some (PyError.valueError "Expected MORE or ABORT in response to PAGE")⟩
    else
      match serializeRow row with
      | (colFrames, some e) => ⟨Frame.tag "ROW" :: colFrames, input, some e⟩
      | (colFrames, none) =>
        let r := rowLoop input (pageRow + 1) rest
        ⟨Frame.tag "ROW" :: (colFrames ++ r.frames), r.rest, r.err⟩
  termination_by input.length + rows.length
  decreasing_by
    all_goals simp [List.length_cons]

/-! ## `execute_query` (lines 20-75) and `prepare_query` (lines 78-93) -/

/-- The response of `execute_query` after the query text has been
received, given the cursor's outcome: `ERROR` plus the message data
frame (empty messages become `Unknown error`) on an engine error;
the metadata block, the streamed rows and the trailing `END` tag when
`cursor.description` is present; `AFFECTED` plus the row count when it
is `None`. -/
def executeBody (input : List (List Nat)) (qr : QueryResult) : LoopOut :=
  match qr with
  | QueryResult.failure msg =>
    ⟨[Frame.tag "ERROR",
      Frame.data (utf8Encode (if msg = "" then "Unknown error" else msg))], input, none⟩
  | QueryResult.mutation rc => ⟨[Frame.tag "AFFECTED", Frame.num rc], input, none⟩
  | QueryResult.results desc rows =>
    let r := rowLoop input 0 rows
    match r.err with
    | some e => ⟨metadataFrames desc ++ r.frames, r.rest, some e⟩
    | none => ⟨metadataFrames desc ++ (r.frames ++ [Frame.tag "END"]), r.rest, none⟩

/-- `execute_query(server_recv, server_send, cursor)`: receive the SQL
text with `recv_data`, submit it to the engine, emit the response. -/
def execute_query (engine : String → QueryResult) (input : List (List Nat)) : LoopOut :=
  match recv_data input with
  | Except.error e => ⟨[], input.drop 1, some e⟩
  | Except.ok (query, rest) => executeBody rest (engine query)

/-- `prepare_query(server_recv, server_send, cursor)`: receive the SQL
text, wrap it as the zero-row probe
`SELECT * FROM (` … `) LIMIT 0`, submit the probe, and on success emit
only the metadata block — no rows and no `END`.  Should the probe
report no description (`cursor.description` is `None`), the program
prints `METADATA` and then raises `TypeError` at `len(None)`. -/
def prepare_query (engine : String → QueryResult) (input : List (List Nat)) : LoopOut :=
  match recv_data input with
  | Except.error e => ⟨[], input.drop 1, some e⟩
  | Except.ok (metadataQuery, rest) =>
    match engine ("SELECT * FROM (" ++ metadataQuery ++ ") LIMIT 0") with
    | QueryResult.failure msg =>
      ⟨[Frame.tag "ERROR",
        Frame.data (utf8Encode (if msg = "" then "Unknown error" else msg))], rest, none⟩
    | QueryResult.results desc _ => ⟨metadataFrames desc, rest, none⟩
    | QueryResult.mutation _ => ⟨[Frame.tag "METADATA"], rest, some PyError.typeError⟩

/-! ## Consumption lemmas: every handler leaves a suffix of its input -/

theorem rowLoop_rest_suffix (input : List (List Nat)) (pageRow : Nat)
    (rows : List (List SqlValue)) : (rowLoop input pageRow rows).rest <:+ input := by
  rw [rowLoop.eq_def]
  cases rows with
  | nil => exact List.suffix_refl _
  | cons row rest =>
    by_cases h3 : pageRow = 3
    · simp only [if_pos h3]
      cases input with
      | nil => exact List.nil_suffix
      | cons line input' =>
        cases h : asciiDecodeLine line with
        | error e => simp only [h]; exact List.suffix_cons line input'
        | ok chars =>
          simp only [h]
          by_cases hm : readTag chars = "MORE".toList
          · simp only [if_pos hm]
            exact (rowLoop_rest_suffix input' 0 (row :: rest)).trans (List.suffix_cons line input')
          · by_cases ha : readTag chars = "ABORT".toList
            · simp only [if_neg hm, if_pos ha]
              exact List.suffix_cons line input'
            · simp only [if_neg hm, if_neg ha]
              exact List.suffix_cons line input'
    · simp only [if_neg h3]
      cases hs : serializeRow row with
      | mk colFrames errCol =>
        cases errCol with
        | some e => simp only [hs]; exact List.suffix_refl _
        | none => simp only [hs]; exact rowLoop_rest_suffix input (pageRow + 1) rest
  termination_by input.length + rows.length
  decreasing_by
    all_goals simp [List.length_cons]

theorem executeBody_rest_suffix (input : List (List Nat)) (qr : QueryResult) :
    (executeBody input qr).rest <:+ input := by
  cases qr with
  | failure msg => exact List.suffix_refl _
  | mutation rc => exact List.suffix_refl _
  | results desc rows =>
    show (match (rowLoop input 0 rows).err with
      | some e => ⟨_, (rowLoop input 0 rows).rest, some e⟩
      | none => ⟨_, (rowLoop input 0 rows).rest, none⟩ : LoopOut).rest <:+ input
    cases (rowLoop input 0 rows).err with
    | some e => exact rowLoop_rest_suffix input 0 rows
    | none => exact rowLoop_rest_suffix input 0 rows

theorem recv_data_ok_shape (input : List (List Nat)) (q : String)
    (rest : List (List Nat)) (h : recv_data input = Except.ok (q, rest)) :
    ∃ line, input = line :: rest := by
  cases input with
  | nil => exact absurd h (by simp [recv_data])
  | cons line tail =>
    refine ⟨line, ?_⟩
    suffices htail : tail = rest by rw [htail]
    simp only [recv_data] at h
    cases ha : asciiDecodeLine line with
    | error e => simp only [ha] at h; exact absurd h (by simp)
    | ok chars =>
      simp only [ha] at h
      cases hb : b64decodePy chars with
      | error e => simp only [hb] at h; exact absurd h (by simp)
      | ok bs =>
        simp only [hb] at h
        cases hu : utf8DecodePy bs with
        | none => simp only [hu] at h; exact absurd h (by simp)
        | some cs =>
          simp only [hu, Except.ok.injEq, Prod.mk.injEq] at h
          exact h.2

theorem execute_query_rest_suffix (engine : String → QueryResult)
    (input : List (List Nat)) : (execute_query engine input).rest <:+ input := by
  cases h : recv_data input with
  | error e =>
    rw [execute_query, h]
    exact List.drop_suffix 1 input
  | ok qr =>
    obtain ⟨q, rest⟩ := qr
    obtain ⟨line, rfl⟩ := recv_data_ok_shape input q rest h
    rw [execute_query, h]
    exact (executeBody_rest_suffix rest (engine q)).trans (List.suffix_cons line rest)

theorem prepare_query_rest_suffix (engine : String → QueryResult)
    (input : List (List Nat)) : (prepare_query engine input).rest <:+ input := by
  cases h : recv_data input with
  | error e =>
    rw [prepare_query, h]
    exact List.drop_suffix 1 input
  | ok qr =>
    obtain ⟨q, rest⟩ := qr
    obtain ⟨line, rfl⟩ := recv_data_ok_shape input q rest h
    rw [prepare_query, h]
    dsimp only
    refine List.IsSuffix.trans ?_ (List.suffix_cons line rest)
    cases engine ("SELECT * FROM (" ++ q ++ ") LIMIT 0") with
    | failure msg => exact List.suffix_refl _
    | results desc rows => exact List.suffix_refl _
    | mutation rc => exact List.suffix_refl _

/-! ## The command loop of `main` (lines 96-128) -/

/-- What one session produced: the frames written to the peer, and
whether the function reached its `server.close()` / `db.close()` lines.
The loop body's `try`/`except Exception` turns any exception from the
handlers into a `break`, so those paths do close; but the command read
at line 112 is guarded only against `StopIteration`, so a
`UnicodeDecodeError` raised there propagates out of `main`, skipping
both `close()` calls. -/
structure SessionResult where
  frames : List Frame
  closed : Bool
  deriving DecidableEq

/-- The `while True` command loop (lines 108-125): read a line and
strip it (end of stream breaks the loop), dispatch `EXECUTE` /
`PREPARE` (an exception from the handler is caught and breaks the
loop), and break on any other command. -/
def sessionLoop (engine : String → QueryResult) (input : List (List Nat)) :
    SessionResult :=
  match input with
  | [] => ⟨[], true⟩
  | line :: input' =>
    match asciiDecodeLine line with
    | Except.error _ => ⟨[], false⟩
    | Except.ok chars =>
      if readTag chars = "EXECUTE".toList then
        let r := execute_query engine input'
        match r.err with
        | some _ => ⟨r.frames, true⟩
        | none =>
          let s := sessionLoop engine r.rest
          ⟨r.frames ++ s.frames, s.closed⟩
      else if readTag chars = "PREPARE".toList then
        let r := prepare_query engine input'
        match r.err with
        | some _ => ⟨r.frames, true⟩
        | none =>
          let s := sessionLoop engine r.rest
          ⟨r.frames ++ s.frames, s.closed⟩
      else ⟨[], true⟩
  termination_by input.length
  decreasing_by
    all_goals simp only [List.length_cons]
    · exact Nat.lt_succ_of_le (List.IsSuffix.length_le (execute_query_rest_suffix _ _))
    · exact Nat.lt_succ_of_le (List.IsSuffix.length_le (prepare_query_rest_suffix _ _))

/-- `main` after the connection is up (lines 105-128): the `HELLO`
handshake tag, the data frame naming the engine, then the command
loop. -/
def main (engine : String → QueryResult) (input : List (List Nat)) : SessionResult :=
  let s := sessionLoop engine input
  ⟨Frame.tag "HELLO" :: Frame.data (utf8Encode "sqlite") :: s.frames, s.closed⟩

/-! ## Correctness of the base64 layer -/

theorem b64encodeBytes_lt64 (bs : List Nat) (h : ∀ b ∈ bs, b < 256) :
    ∀ s ∈ b64encodeBytes bs, s < 64 := by
  induction bs using b64encodeBytes.induct with
  | case1 => intro s hs; simp [b64encodeBytes] at hs
  | case2 a =>
    have ha : a < 256 := h a (by simp)
    intro s hs
    simp [b64encodeBytes] at hs
    rcases hs with rfl | rfl <;> omega
  | case3 a b =>
    have ha : a < 256 := h a (by simp)
    have hb : b < 256 := h b (by simp)
    intro s hs
    simp [b64encodeBytes] at hs
    rcases hs with rfl | rfl | rfl <;> omega
  | case4 a b c rest ih =>
    have ha : a < 256 := h a (by simp)
    have hb : b < 256 := h b (by simp)
    have hc : c < 256 := h c (by simp)
    intro s hs
    simp only [b64encodeBytes, List.mem_cons] at hs
    rcases hs with rfl | rfl | rfl | rfl | hs
    · omega
    · omega
    · omega
    · omega
    · exact ih (fun x hx => h x (by simp [hx])) s hs

theorem b64decodeSextets_encodeBytes (bs : List Nat) (h : ∀ b ∈ bs, b < 256) :
    b64decodeSextets (b64encodeBytes bs) = some bs := by
  induction bs using b64encodeBytes.induct with
  | case1 => rfl
  | case2 a =>
    have ha : a < 256 := h a (by simp)
    simp only [b64encodeBytes, b64decodeSextets, Option.some.injEq, List.cons.injEq,
      and_true]
    omega
  | case3 a b =>
    have ha : a < 256 := h a (by simp)
    have hb : b < 256 := h b (by simp)
    simp only [b64encodeBytes, b64decodeSextets, Option.some.injEq, List.cons.injEq,
      and_true]
    constructor <;> omega
  | case4 a b c rest ih =>
    have ha : a < 256 := h a (by simp)
    have hb : b < 256 := h b (by simp)
    have hc : c < 256 := h c (by simp)
    have ih' := ih (fun x hx => h x (by simp [hx]))
    simp only [b64encodeBytes, b64decodeSextets, ih', Option.map_some', Option.some.injEq,
      List.cons.injEq, and_true]
    omega

theorem charSextet_sextetChar : ∀ i : Fin 64, charSextet (sextetChar i.val) = some i.val := by
  decide

theorem b64KeepChar_sextetChar : ∀ i : Fin 64, b64KeepChar (sextetChar i.val) = true := by
  decide

theorem sextetChar_ne_pad : ∀ i : Fin 64, (sextetChar i.val != '=') = true := by
  decide

theorem sextetChar_toNat_lt (s : Nat) : (sextetChar s).toNat < 128 := by
  by_cases hs : s < 64
  · exact (by decide : ∀ i : Fin 64, (sextetChar i.val).toNat < 128) ⟨s, hs⟩
  · unfold sextetChar
    rw [List.getD_eq_default _ _ (by simp [b64Alphabet]; omega)]
    decide

theorem b64pad_all_pad (n : Nat) : ∀ c ∈ b64pad n, c = '=' := by
  intro c hc
  unfold b64pad at hc
  split at hc
  · simp at hc; exact hc
  · split at hc
    · simpa using hc
    · simp at hc

theorem tw_append_of_all {p : α → Bool} {l1 l2 : List α} (h : ∀ a ∈ l1, p a = true) :
    (l1 ++ l2).takeWhile p = l1 ++ l2.takeWhile p := by
  induction l1 with
  | nil => simp
  | cons a t ih =>
    simp only [List.cons_append, List.takeWhile_cons, h a (by simp)]
    rw [ih (fun x hx => h x (by simp [hx]))]
    simp

theorem filterMap_charSextet_map (sxs : List Nat) (h : ∀ s ∈ sxs, s < 64) :
    (sxs.map sextetChar).filterMap charSextet = sxs := by
  induction sxs with
  | nil => rfl
  | cons s t ih =>
    have hs := charSextet_sextetChar ⟨s, h s (by simp)⟩
    simp only [List.map_cons, List.filterMap_cons, hs]
    rw [ih (fun x hx => h x (by simp [hx]))]

theorem b64_kept_length (bs : List Nat) :
    ((b64encodeBytes bs).length + (b64pad bs.length).length) % 4 = 0 := by
  induction bs using b64encodeBytes.induct with
  | case1 => rfl
  | case2 a => simp [b64encodeBytes, b64pad]
  | case3 a b => simp [b64encodeBytes, b64pad]
  | case4 a b c rest ih =>
    have hpad : b64pad (a :: b :: c :: rest).length = b64pad rest.length := by
      unfold b64pad
      simp only [List.length_cons]
      have h3 : (rest.length + 1 + 1 + 1) % 3 = rest.length % 3 := by omega
      simp only [h3]
    rw [hpad]
    simp only [b64encodeBytes, List.length_cons]
    omega

theorem b64decode_b64encode (bs : List Nat) (h : ∀ b ∈ bs, b < 256) :
    b64decodePy (b64encode bs ++ ['\n']) = Except.ok bs := by
  have hlt := b64encodeBytes_lt64 bs h
  have hkeepA : ∀ c ∈ (b64encodeBytes bs).map sextetChar, b64KeepChar c = true := by
    intro c hc
    obtain ⟨s, hs, rfl⟩ := List.mem_map.mp hc
    exact b64KeepChar_sextetChar ⟨s, hlt s hs⟩
  have hkeepP : ∀ c ∈ b64pad bs.length, b64KeepChar c = true := by
    intro c hc
    rw [b64pad_all_pad bs.length c hc]
    decide
  have hfilter : ((b64encodeBytes bs).map sextetChar ++ b64pad bs.length ++ ['\n']).filter
      b64KeepChar = (b64encodeBytes bs).map sextetChar ++ b64pad bs.length := by
    rw [List.filter_append, List.filter_append, List.filter_eq_self.mpr hkeepA,
      List.filter_eq_self.mpr hkeepP]
    simp [List.filter, b64KeepChar, charSextet, b64Alphabet]
  have htake : (((b64encodeBytes bs).map sextetChar ++ b64pad bs.length).takeWhile
      (fun c => c != '=')) = (b64encodeBytes bs).map sextetChar := by
    rw [tw_append_of_all (fun c hc => by
      obtain ⟨s, hs, rfl⟩ := List.mem_map.mp hc
      exact sextetChar_ne_pad ⟨s, hlt s hs⟩)]
    have : (b64pad bs.length).takeWhile (fun c => c != '=') = [] := by
      unfold b64pad
      split
      · rfl
      · split <;> rfl
    rw [this, List.append_nil]
  have hlen : (((b64encodeBytes bs).map sextetChar ++ b64pad bs.length).length) % 4 = 0 := by
    rw [List.length_append, List.length_map]
    exact b64_kept_length bs
  unfold b64decodePy b64encode
  rw [hfilter, if_pos hlen, htake, filterMap_charSextet_map _ hlt,
    b64decodeSextets_encodeBytes bs h]

theorem send_data_ascii (bs : List Nat) :
    asciiDecodeLine (lineBytes (send_data bs)) = Except.ok (send_data bs) := by
  have hall : ∀ c ∈ send_data bs, c.toNat < 128 := by
    intro c hc
    unfold send_data b64encode at hc
    rw [List.append_assoc, List.mem_append, List.mem_append] at hc
    rcases hc with hc | hc | hc
    · obtain ⟨s, _, rfl⟩ := List.mem_map.mp hc
      exact sextetChar_toNat_lt s
    · rw [b64pad_all_pad bs.length c hc]; decide
    · simp at hc; rw [hc]; decide
  unfold asciiDecodeLine lineBytes
  rw [if_pos]
  · rw [List.map_map]
    have : (send_data bs).map (Char.ofNat ∘ Char.toNat) = (send_data bs).map id := by
      exact List.map_congr_left (fun c _ => Char.ofNat_toNat c)
    rw [this, List.map_id]
  · rw [List.all_eq_true]
    intro b hb
    obtain ⟨c, hc, rfl⟩ := List.mem_map.mp hb
    exact decide_eq_true (hall c hc)

/-- The full `recv_data` of a `send_data` line: the base64 layer gives
back exactly the payload bytes, after which `recv_data` decodes them as
UTF-8. -/
theorem recv_data_send_data (bs : List Nat) (h : ∀ b ∈ bs, b < 256)
    (extra : List (List Nat)) :
    recv_data (lineBytes (send_data bs) :: extra) =
      match utf8DecodePy bs with
      | some cs => Except.ok (String.mk cs, extra)
      | none => Except.error PyError.unicodeDecodeError := by
  have hb64 : b64decodePy (send_data bs) = Except.ok bs := b64decode_b64encode bs h
  simp only [recv_data, send_data_ascii bs, hb64]
  cases utf8DecodePy bs <;> rfl

/-! ## `str.strip` lemmas -/

theorem dw_append_of_all {p : α → Bool} {l1 l2 : List α} (h : ∀ a ∈ l1, p a = true) :
    (l1 ++ l2).dropWhile p = l2.dropWhile p := by
  induction l1 with
  | nil => simp
  | cons a t ih =>
    simp only [List.cons_append, List.dropWhile_cons, h a (by simp)]
    exact ih (fun x hx => h x (by simp [hx]))

theorem dw_nil_of_all {p : α → Bool} {l : List α} (h : ∀ a ∈ l, p a = true) :
    l.dropWhile p = [] := by
  have := @dw_append_of_all _ p l [] h
  simpa using this

theorem dw_eq_self_of_all_false {p : α → Bool} {l : List α} (h : ∀ a ∈ l, p a = false) :
    l.dropWhile p = l := by
  cases l with
  | nil => rfl
  | cons a t => simp [List.dropWhile_cons, h a (by simp)]

/-- `str.strip()` on a line made of leading whitespace, a
whitespace-free token and trailing whitespace returns exactly the
token: leading whitespace is removed as well as trailing. -/
theorem pyStrip_token (w1 t w2 : List Char) (hw1 : ∀ c ∈ w1, pyIsSpace c = true)
    (ht : ∀ c ∈ t, pyIsSpace c = false) (hw2 : ∀ c ∈ w2, pyIsSpace c = true) :
    pyStrip (w1 ++ t ++ w2) = t := by
  unfold pyStrip
  rw [List.append_assoc, dw_append_of_all hw1]
  cases t with
  | nil =>
    rw [List.nil_append, dw_nil_of_all hw2]
    rfl
  | cons c t' =>
    rw [List.cons_append, List.dropWhile_cons, ht c (by simp)]
    simp only [Bool.false_eq_true, if_false]
    rw [List.reverse_cons, List.reverse_append, List.append_assoc,
      dw_append_of_all (fun a ha => hw2 a (List.mem_reverse.mp ha))]
    rw [dw_eq_self_of_all_false (fun a ha => by
      rcases List.mem_append.mp ha with ha' | ha'
      · exact ht a (by simp [List.mem_reverse.mp ha'])
      · simp only [List.mem_singleton] at ha'
        exact ha' ▸ ht c (by simp))]
    rw [← List.reverse_cons, List.reverse_reverse]

/-! ## Frame-content lemmas -/

theorem serializeCol_ok_data (col : SqlValue) (f : Frame) (h : serializeCol col = Except.ok f) :
    ∃ bs, f = Frame.data bs := by
  cases col <;> simp [serializeCol, colBytesOf, send_data_frame] at h <;> exact ⟨_, h.symm⟩

theorem serializeRow_frames_data (row : List SqlValue) :
    ∀ f ∈ (serializeRow row).1, ∃ bs, f = Frame.data bs := by
  induction row with
  | nil => simp [serializeRow]
  | cons col rest ih =>
    intro f hf
    unfold serializeRow at hf
    cases hcol : serializeCol col with
    | error e => simp [hcol] at hf
    | ok f0 =>
      simp only [hcol] at hf
      rcases List.mem_cons.mp hf with rfl | hf'
      · exact serializeCol_ok_data col f hcol
      · exact ih f hf'

theorem count_tag_serializeRow (row : List SqlValue) (t : String) :
    List.count (Frame.tag t) (serializeRow row).1 = 0 := by
  rw [List.count_eq_zero]
  intro hmem
  obtain ⟨bs, hbs⟩ := serializeRow_frames_data row _ hmem
  exact Frame.noConfusion hbs

theorem count_tag_rowFrames (row : List SqlValue) (t : String) (h : t ≠ "ROW") :
    List.count (Frame.tag t) (rowFrames row) = 0 := by
  unfold rowFrames
  rw [List.count_cons, count_tag_serializeRow]
  simp
  exact fun hh => h hh.symm

theorem count_page_rowFrames (row : List SqlValue) :
    List.count (Frame.tag "PAGE") (rowFrames row) = 0 :=
  count_tag_rowFrames row "PAGE" (by decide)

theorem count_row_rowFrames (row : List SqlValue) :
    List.count (Frame.tag "ROW") (rowFrames row) = 1 := by
  unfold rowFrames
  rw [List.count_cons, count_tag_serializeRow]
  simp

theorem tag_mem_metadataFrames (desc : List (String × Option String)) (t : String)
    (h : Frame.tag t ∈ metadataFrames desc) : t = "METADATA" := by
  unfold metadataFrames at h
  rcases List.mem_cons.mp h with h1 | h2
  · injection h1
  · rcases List.mem_cons.mp h2 with h3 | h4
    · exact Frame.noConfusion h3
    · obtain ⟨col, _, hmem⟩ := List.mem_flatMap.mp h4
      rcases List.mem_cons.mp hmem with h5 | h6
      · exact Frame.noConfusion h5
      · simp only [List.mem_singleton] at h6
        exact Frame.noConfusion h6

theorem tag_not_mem_metadataFrames (desc : List (String × Option String)) (t : String)
    (h : t ≠ "METADATA") : Frame.tag t ∉ metadataFrames desc :=
  fun hmem => h (tag_mem_metadataFrames desc t hmem)

theorem count_tag_metadataFrames (desc : List (String × Option String)) (t : String)
    (h : t ≠ "METADATA") : List.count (Frame.tag t) (metadataFrames desc) = 0 :=
  List.count_eq_zero.mpr (tag_not_mem_metadataFrames desc t h)

/-! ## The paginated streaming trace under an always-`MORE` peer -/

/-- The reply line `MORE` as the peer sends it on the wire. -/
def moreLine : List Nat := lineOf "MORE\n"

/-- Number of pagination checkpoints the loop passes for `n` rows when
every reply is `MORE`: one before the 4th, 7th, 10th, … row. -/
def pagesOf (n : Nat) : Nat := (n - 1) / 3

/-- The frame trace of the row loop under an always-`MORE` peer: the
rows in order, with a `PAGE` tag after every third row as long as
another row follows. -/
def expectedPaged : List (List SqlValue) → List Frame
  | [] => []
  | [r1] => rowFrames r1
  | [r1, r2] => rowFrames r1 ++ rowFrames r2
  | [r1, r2, r3] => rowFrames r1 ++ rowFrames r2 ++ rowFrames r3
  | r1 :: r2 :: r3 :: rest =>
      rowFrames r1 ++ (rowFrames r2 ++ (rowFrames r3 ++ (Frame.tag "PAGE" :: expectedPaged rest)))

theorem rowLoop_nil (input : List (List Nat)) (p : Nat) :
    rowLoop input p [] = ⟨[], input, none⟩ := by
  rw [rowLoop.eq_def]

theorem rowLoop_emit (input : List (List Nat)) (p : Nat) (hp : ¬p = 3)
    (row : List SqlValue) (rest : List (List SqlValue))
    (hrow : (serializeRow row).2 = none) :
    rowLoop input p (row :: rest) =
      ⟨Frame.tag "ROW" :: ((serializeRow row).1 ++ (rowLoop input (p + 1) rest).frames),
        (rowLoop input (p + 1) rest).rest, (rowLoop input (p + 1) rest).err⟩ := by
  rcases hsr : serializeRow row with ⟨fs, e⟩
  have he : e = none := by rw [hsr] at hrow; exact hrow
  subst he
  rw [rowLoop.eq_def]
  simp only [if_neg hp, hsr]

theorem rowLoop_checkpoint (line : List Nat) (input : List (List Nat)) (chars : List Char)
    (row : List SqlValue) (rest : List (List SqlValue))
    (hline : asciiDecodeLine line = Except.ok chars) :
    rowLoop (line :: input) 3 (row :: rest) =
      if readTag chars = "MORE".toList then
        ⟨Frame.tag "PAGE" :: (rowLoop input 0 (row :: rest)).frames,
          (rowLoop input 0 (row :: rest)).rest, (rowLoop input 0 (row :: rest)).err⟩
      else if readTag chars = "ABORT".toList then
        ⟨[Frame.tag "PAGE"], input, none⟩
      else
        ⟨[Frame.tag "PAGE"], input,
          some (PyError.valueError "Expected MORE or ABORT in response to PAGE")⟩ := by
  rw [rowLoop.eq_def]
  simp only [hline]
  norm_num

theorem rowLoop_allMore (rows : List (List SqlValue)) (m : Nat)
    (hser : ∀ row ∈ rows, (serializeRow row).2 = none) (hm : rows.length ≤ m) :
    rowLoop (List.replicate m moreLine) 0 rows =
      ⟨expectedPaged rows, List.replicate (m - pagesOf rows.length) moreLine, none⟩ :=
  match rows with
  | [] => by simp [rowLoop_nil, expectedPaged, pagesOf]
  | [r1] => by
    rw [rowLoop_emit _ 0 (by decide) r1 [] (hser r1 (by simp))]
    simp [rowLoop_nil, expectedPaged, pagesOf, rowFrames]
  | [r1, r2] => by
    rw [rowLoop_emit _ 0 (by decide) r1 [r2] (hser r1 (by simp)),
      rowLoop_emit _ 1 (by decide) r2 [] (hser r2 (by simp))]
    simp [rowLoop_nil, expectedPaged, pagesOf, rowFrames]
  | [r1, r2, r3] => by
    rw [rowLoop_emit _ 0 (by decide) r1 [r2, r3] (hser r1 (by simp)),
      rowLoop_emit _ 1 (by decide) r2 [r3] (hser r2 (by simp)),
      rowLoop_emit _ 2 (by decide) r3 [] (hser r3 (by simp))]
    simp [rowLoop_nil, expectedPaged, pagesOf, rowFrames]
  | r1 :: r2 :: r3 :: r4 :: rest' => by
    obtain ⟨m', rfl⟩ : ∃ m', m = m' + 1 := by
      cases m with
      | zero => simp at hm
      | succ k => exact ⟨k, rfl⟩
    have hrec := rowLoop_allMore (r4 :: rest') m'
      (fun row hrow => hser row (by simp [List.mem_cons] at hrow ⊢; tauto))
      (by simp at hm ⊢; omega)
    rw [rowLoop_emit _ 0 (by decide) r1 _ (hser r1 (by simp)),
      rowLoop_emit _ 1 (by decide) r2 _ (hser r2 (by simp)),
      rowLoop_emit _ 2 (by decide) r3 _ (hser r3 (by simp))]
    rw [show List.replicate (m' + 1) moreLine = moreLine :: List.replicate m' moreLine from
      List.replicate_succ moreLine m']
    rw [rowLoop_checkpoint moreLine _ ("MORE\n".toList) r4 rest' rfl]
    have hmt : readTag "MORE\n".toList = "MORE".toList := rfl
    rw [if_pos hmt, hrec]
    have hcount : m' - pagesOf (r4 :: rest').length =
        m' + 1 - pagesOf (r1 :: r2 :: r3 :: r4 :: rest').length := by
      simp only [List.length_cons, pagesOf]
      omega
    simp only [expectedPaged, rowFrames, hcount, List.append_assoc, List.cons_append,
      List.nil_append]
  termination_by rows.length

theorem count_page_expectedPaged (rows : List (List SqlValue)) :
    List.count (Frame.tag "PAGE") (expectedPaged rows) = pagesOf rows.length :=
  match rows with
  | [] => by simp [expectedPaged, pagesOf]
  | [r1] => by
    simp [expectedPaged, pagesOf, count_page_rowFrames]
  | [r1, r2] => by
    simp [expectedPaged, pagesOf, List.count_append, count_page_rowFrames]
  | [r1, r2, r3] => by
    simp [expectedPaged, pagesOf, List.count_append, count_page_rowFrames]
  | r1 :: r2 :: r3 :: r4 :: rest' => by
    have hrec := count_page_expectedPaged (r4 :: rest')
    simp only [expectedPaged, List.count_append, List.count_cons_self, hrec,
      count_page_rowFrames]
    simp only [List.length_cons, pagesOf] at *
    omega
  termination_by rows.length

/-! ## Unfolding helpers for the emission paths -/

theorem rowLoop_emit_error (input : List (List Nat)) (p : Nat) (hp : ¬p = 3)
    (row : List SqlValue) (rest : List (List SqlValue)) (fs : List Frame) (e : PyError)
    (h : serializeRow row = (fs, some e)) :
    rowLoop input p (row :: rest) = ⟨Frame.tag "ROW" :: fs, input, some e⟩ := by
  rw [rowLoop.eq_def]
  simp only [if_neg hp, h]

theorem executeBody_results_err (input : List (List Nat))
    (desc : List (String × Option String)) (rows : List (List SqlValue)) (e : PyError)
    (h : (rowLoop input 0 rows).err = some e) :
    executeBody input (QueryResult.results desc rows) =
      ⟨metadataFrames desc ++ (rowLoop input 0 rows).frames, (rowLoop input 0 rows).rest,
        some e⟩ := by
  simp only [executeBody, h]

theorem executeBody_results_ok (input : List (List Nat))
    (desc : List (String × Option String)) (rows : List (List SqlValue))
    (h : (rowLoop input 0 rows).err = none) :
    executeBody input (QueryResult.results desc rows) =
      ⟨metadataFrames desc ++ ((rowLoop input 0 rows).frames ++ [Frame.tag "END"]),
        (rowLoop input 0 rows).rest, none⟩ := by
  simp only [executeBody, h]

theorem sessionLoop_ascii_closed (engine : String → QueryResult) (input : List (List Nat))
    (h : ∀ l ∈ input, ∀ b ∈ l, b < 128) : (sessionLoop engine input).closed = true :=
  match input with
  | [] => by rw [sessionLoop.eq_def]
  | line :: input' => by
    have hline : asciiDecodeLine line = Except.ok (line.map Char.ofNat) := by
      unfold asciiDecodeLine
      rw [if_pos]
      rw [List.all_eq_true]
      intro b hb
      exact decide_eq_true (h line (by simp) b hb)
    rw [sessionLoop.eq_def]
    simp only [hline]
    by_cases he : readTag (line.map Char.ofNat) = "EXECUTE".toList
    · simp only [if_pos he]
      cases herr : (execute_query engine input').err with
      | some e => simp only [herr]
      | none =>
        simp only [herr]
        exact sessionLoop_ascii_closed engine (execute_query engine input').rest
          (fun l hl b hb =>
            h l (List.mem_cons_of_mem line
              (((execute_query_rest_suffix engine input').sublist).subset hl)) b hb)
    · simp only [if_neg he]
      by_cases hp : readTag (line.map Char.ofNat) = "PREPARE".toList
      · simp only [if_pos hp]
        cases herr : (prepare_query engine input').err with
        | some e => simp only [herr]
        | none =>
          simp only [herr]
          exact sessionLoop_ascii_closed engine (prepare_query engine input').rest
            (fun l hl b hb =>
              h l (List.mem_cons_of_mem line
                (((prepare_query_rest_suffix engine input').sublist).subset hl)) b hb)
      · simp only [if_neg hp]
  termination_by input.length
  decreasing_by
    all_goals simp only [List.length_cons]
    · exact Nat.lt_succ_of_le (List.IsSuffix.length_le (execute_query_rest_suffix _ _))
    · exact Nat.lt_succ_of_le (List.IsSuffix.length_le (prepare_query_rest_suffix _ _))

/-! ## The claims -/

/-- Claim C1: the claim states that a null column value is serialized
as the literal text `<null>`, and a blob as base64 text, each sent as
one data frame without terminating the session.  The code instead
crashes on both: for `None` it passes the *`str`* `'<null>'` to
`send_data`, where `base64.b64encode` raises `TypeError`; for a blob it
evaluates `base64.b64encode(col).encode('utf-8')`, but `bytes` has no
`.encode`, raising `AttributeError`.  Either exception aborts the
command and tears the session down.  Text and numeric values are
serialized as the claim says. -/
theorem c1_null_blob_serialization_crash :
    executeBody [] (QueryResult.results [("a", none)] [[SqlValue.vnull]]) =
        ⟨metadataFrames [("a", none)] ++ [Frame.tag "ROW"], [], some PyError.typeError⟩ ∧
    executeBody [] (QueryResult.results [("a", none)] [[SqlValue.vblob [0, 1]]]) =
        ⟨metadataFrames [("a", none)] ++ [Frame.tag "ROW"], [], some PyError.attributeError⟩ ∧
    serializeCol (SqlValue.vtext "ab") = Except.ok (Frame.data (utf8Encode "ab")) ∧
    serializeCol (SqlValue.vint 7) = Except.ok (Frame.data (utf8Encode "7")) ∧
    serializeCol (SqlValue.vfloat "2.5") = Except.ok (Frame.data (utf8Encode "2.5")) ∧
    serializeCol SqlValue.vnull = Except.error PyError.typeError ∧
    serializeCol (SqlValue.vblob [0, 1]) = Except.error PyError.attributeError := by
  have hn : rowLoop [] 0 [[SqlValue.vnull]] =
      ⟨[Frame.tag "ROW"], [], some PyError.typeError⟩ :=
    rowLoop_emit_error [] 0 (by decide) [SqlValue.vnull] [] [] PyError.typeError rfl
  have hb : rowLoop [] 0 [[SqlValue.vblob [0, 1]]] =
      ⟨[Frame.tag "ROW"], [], some PyError.attributeError⟩ :=
    rowLoop_emit_error [] 0 (by decide) [SqlValue.vblob [0, 1]] [] [] PyError.attributeError rfl
  refine ⟨?_, ?_, rfl, rfl, rfl, rfl, rfl⟩
  · rw [executeBody_results_err _ _ _ _ (by rw [hn]), hn]
  · rw [executeBody_results_err _ _ _ _ (by rw [hb]), hb]

/-- Claim C9 counterexample: the claim says a line with leading
whitespace before the token is not equal to the bare token after tag
decoding.  But the program uses `str.strip()`, which removes *leading*
whitespace as well, so the line `" MORE\n"` decodes to exactly the bare
token `MORE`. -/
theorem c9_counterexample : readTag " MORE\n".toList = "MORE".toList := by decide

/-- Claim C9 (amended): tag decoding reads the next line and strips
whitespace from both ends — leading as well as trailing — returning the
token without base64 decoding; a line with leading or trailing
whitespace around a whitespace-free token is therefore equal to the
bare token. -/
theorem c9_tag_strip (w1 t w2 : List Char) (hw1 : ∀ c ∈ w1, pyIsSpace c = true)
    (ht : ∀ c ∈ t, pyIsSpace c = false) (hw2 : ∀ c ∈ w2, pyIsSpace c = true) :
    readTag (w1 ++ t ++ w2) = t :=
  pyStrip_token w1 t w2 hw1 ht hw2

/-- Witness for C9 at the line `" MORE\n"`. -/
theorem c9_tag_strip_witness :
    (∀ c ∈ [' '], pyIsSpace c = true) ∧ (∀ c ∈ "MORE".toList, pyIsSpace c = false) ∧
    (∀ c ∈ ['\n'], pyIsSpace c = true) ∧
    readTag ([' '] ++ "MORE".toList ++ ['\n']) = "MORE".toList :=
  ⟨by decide, by decide, by decide,
    c9_tag_strip [' '] "MORE".toList ['\n'] (by decide) (by decide) (by decide)⟩

/-- Claim C2 counterexample: the byte sequence `0xFF` is not valid
UTF-8, and `recv_data` raises `UnicodeDecodeError` on the very line
`send_data` produced for it — decoding the encoding of `[255]` does not
yield `[255]` back. -/
theorem c2_counterexample :
    recv_data [lineBytes (send_data [255])] = Except.error PyError.unicodeDecodeError := rfl

/-- Claim C2 (amended): for every byte sequence `b`, the frame codec
round-trips at the byte level — `b64decode` of the line `send_data(b)`
wrote yields exactly `b` — but `recv_data` additionally decodes those
bytes as UTF-8 (it returns a `str`), so it returns the text of `b` when
`b` is valid UTF-8 and raises `UnicodeDecodeError` otherwise. -/
theorem c2_data_frame_roundtrip (bs : List Nat) (h : ∀ b ∈ bs, b < 256)
    (extra : List (List Nat)) :
    b64decodePy (send_data bs) = Except.ok bs ∧
    recv_data (lineBytes (send_data bs) :: extra) =
      (match utf8DecodePy bs with
        | some cs => Except.ok (String.mk cs, extra)
        | none => Except.error PyError.unicodeDecodeError) :=
  ⟨b64decode_b64encode bs h, recv_data_send_data bs h extra⟩

/-- Witness for C2 at the payload `"hi"` (bytes `[104, 105]`). -/
theorem c2_data_frame_roundtrip_witness :
    (∀ b ∈ [104, 105], b < 256) ∧
    (b64decodePy (send_data [104, 105]) = Except.ok [104, 105] ∧
      recv_data (lineBytes (send_data [104, 105]) :: ([] : List (List Nat))) =
        Except.ok ("hi", [])) :=
  ⟨by decide, c2_data_frame_roundtrip [104, 105] (by decide) []⟩

/-- Claim C10: an `EXECUTE` whose query yields column metadata but zero
rows emits the metadata block followed immediately by `END`, with no
`ROW` frame and no `PAGE` checkpoint. -/
theorem c10_zero_row_results (engine : String → QueryResult) (q : String)
    (input input₁ : List (List Nat)) (desc : List (String × Option String))
    (hrecv : recv_data input = Except.ok (q, input₁))
    (heng : engine q = QueryResult.results desc []) :
    execute_query engine input =
      ⟨metadataFrames desc ++ ([] ++ [Frame.tag "END"]), input₁, none⟩ ∧
    Frame.tag "ROW" ∉ (execute_query engine input).frames ∧
    Frame.tag "PAGE" ∉ (execute_query engine input).frames := by
  have hmain : execute_query engine input =
      ⟨metadataFrames desc ++ ([] ++ [Frame.tag "END"]), input₁, none⟩ := by
    rw [execute_query, hrecv]
    dsimp only
    rw [heng]
    rw [executeBody_results_ok _ _ _ (by rw [rowLoop_nil]), rowLoop_nil]
  refine ⟨hmain, ?_, ?_⟩
  · rw [hmain]
    intro hmem
    rcases List.mem_append.mp hmem with hmem' | hmem'
    · exact tag_not_mem_metadataFrames desc "ROW" (by decide) hmem'
    · simp at hmem'
  · rw [hmain]
    intro hmem
    rcases List.mem_append.mp hmem with hmem' | hmem'
    · exact tag_not_mem_metadataFrames desc "PAGE" (by decide) hmem'
    · simp at hmem'

/-- Witness for C10: `EXECUTE` of `SELECT 1` against an engine whose
result has one column and no rows. -/
theorem c10_zero_row_results_witness :
    (recv_data [lineBytes (send_data (utf8Encode "SELECT 1"))] =
      Except.ok ("SELECT 1", [])) ∧
    ((fun _ => QueryResult.results [("1", none)] []) "SELECT 1" =
      QueryResult.results [("1", none)] []) ∧
    (execute_query (fun _ => QueryResult.results [("1", none)] [])
        [lineBytes (send_data (utf8Encode "SELECT 1"))] =
      ⟨metadataFrames [("1", none)] ++ ([] ++ [Frame.tag "END"]), [], none⟩ ∧
    Frame.tag "ROW" ∉ (execute_query (fun _ => QueryResult.results [("1", none)] [])
        [lineBytes (send_data (utf8Encode "SELECT 1"))]).frames ∧
    Frame.tag "PAGE" ∉ (execute_query (fun _ => QueryResult.results [("1", none)] [])
        [lineBytes (send_data (utf8Encode "SELECT 1"))]).frames) :=
  ⟨rfl, rfl,
    c10_zero_row_results (fun _ => QueryResult.results [("1", none)] []) "SELECT 1"
      [lineBytes (send_data (utf8Encode "SELECT 1"))] [] [("1", none)] rfl rfl⟩

/-- Claim C6: `PREPARE` rewrites the received SQL text as the zero-row
probe `SELECT * FROM (` … `) LIMIT 0` before submitting it, and when
the probe succeeds it emits only the metadata block — the `METADATA`
tag, the column count and per-column name/type data frames, `DYNAMIC`
substituted for absent types inside `metadataFrames` — never a `ROW`
frame or an `END` tag, regardless of the rows the probed query would
produce. -/
theorem c6_prepare_probe_metadata (engine : String → QueryResult) (q : String)
    (input input₁ : List (List Nat)) (desc : List (String × Option String))
    (probeRows : List (List SqlValue))
    (hrecv : recv_data input = Except.ok (q, input₁))
    (heng : engine ("SELECT * FROM (" ++ q ++ ") LIMIT 0") =
      QueryResult.results desc probeRows) :
    prepare_query engine input = ⟨metadataFrames desc, input₁, none⟩ ∧
    Frame.tag "ROW" ∉ metadataFrames desc ∧
    Frame.tag "END" ∉ metadataFrames desc := by
  refine ⟨?_, tag_not_mem_metadataFrames desc "ROW" (by decide),
    tag_not_mem_metadataFrames desc "END" (by decide)⟩
  rw [prepare_query, hrecv]
  dsimp only
  rw [heng]

/-- Witness for C6: `PREPARE` of `SELECT 1` against an engine that
answers the probe with one typeless column. -/
theorem c6_prepare_probe_metadata_witness :
    (recv_data [lineBytes (send_data (utf8Encode "SELECT 1"))] =
      Except.ok ("SELECT 1", [])) ∧
    ((fun s => if s = "SELECT * FROM (SELECT 1) LIMIT 0" then
        QueryResult.results [("1", none)] [] else QueryResult.failure "x")
      ("SELECT * FROM (" ++ "SELECT 1" ++ ") LIMIT 0") =
        QueryResult.results [("1", none)] []) ∧
    (prepare_query
        (fun s => if s = "SELECT * FROM (SELECT 1) LIMIT 0" then
          QueryResult.results [("1", none)] [] else QueryResult.failure "x")
        [lineBytes (send_data (utf8Encode "SELECT 1"))] =
      ⟨metadataFrames [("1", none)], [], none⟩ ∧
    Frame.tag "ROW" ∉ metadataFrames [("1", none)] ∧
    Frame.tag "END" ∉ metadataFrames [("1", none)]) :=
  ⟨rfl, by decide,
    c6_prepare_probe_metadata _ "SELECT 1" [lineBytes (send_data (utf8Encode "SELECT 1"))]
      [] [("1", none)] [] rfl (by decide)⟩

/-- Claim C5: for every SQL text the engine rejects, `EXECUTE` responds
with exactly the `ERROR` tag and one data frame carrying the message
(the literal `Unknown error` when the engine's message is empty), no
other frames, no exception — and the command loop goes on to serve the
rest of the input, so the session stays usable. -/
theorem c5_engine_error_reply (engine : String → QueryResult) (q msg : String)
    (input input₁ : List (List Nat))
    (hrecv : recv_data input = Except.ok (q, input₁))
    (heng : engine q = QueryResult.failure msg) :
    execute_query engine input =
      ⟨[Frame.tag "ERROR",
        Frame.data (utf8Encode (if msg = "" then "Unknown error" else msg))], input₁, none⟩ ∧
    sessionLoop engine (lineOf "EXECUTE\n" :: input) =
      ⟨[Frame.tag "ERROR",
          Frame.data (utf8Encode (if msg = "" then "Unknown error" else msg))] ++
          (sessionLoop engine input₁).frames,
        (sessionLoop engine input₁).closed⟩ := by
  have hexec : execute_query engine input =
      ⟨[Frame.tag "ERROR",
        Frame.data (utf8Encode (if msg = "" then "Unknown error" else msg))], input₁, none⟩ := by
    rw [execute_query, hrecv]
    dsimp only
    rw [heng]
    rfl
  refine ⟨hexec, ?_⟩
  rw [sessionLoop.eq_def]
  have ha : asciiDecodeLine (lineOf "EXECUTE\n") = Except.ok ("EXECUTE\n".toList) := rfl
  simp only [ha]
  have ht : readTag "EXECUTE\n".toList = "EXECUTE".toList := rfl
  rw [if_pos ht]
  simp only [hexec]

/-- Witness for C5: `EXECUTE` of a rejected query whose engine message
is empty, normalized to `Unknown error`. -/
theorem c5_engine_error_reply_witness :
    (recv_data [lineBytes (send_data (utf8Encode "BAD"))] = Except.ok ("BAD", [])) ∧
    ((fun _ => QueryResult.failure "") "BAD" = QueryResult.failure "") ∧
    (execute_query (fun _ => QueryResult.failure "")
        [lineBytes (send_data (utf8Encode "BAD"))] =
      ⟨[Frame.tag "ERROR",
        Frame.data (utf8Encode (if "" = "" then "Unknown error" else ""))], [], none⟩ ∧
    sessionLoop (fun _ => QueryResult.failure "")
        (lineOf "EXECUTE\n" :: [lineBytes (send_data (utf8Encode "BAD"))]) =
      ⟨[Frame.tag "ERROR",
          Frame.data (utf8Encode (if "" = "" then "Unknown error" else ""))] ++
          (sessionLoop (fun _ => QueryResult.failure "") []).frames,
        (sessionLoop (fun _ => QueryResult.failure "") []).closed⟩) :=
  ⟨rfl, rfl,
    c5_engine_error_reply (fun _ => QueryResult.failure "") "BAD" ""
      [lineBytes (send_data (utf8Encode "BAD"))] [] rfl rfl⟩

/-- Claim C4: when the peer replies `ABORT` at the first checkpoint of
a 7-row result, the loop breaks after the three rows already emitted
and the handler still appends the trailing `END` tag: the trace is the
metadata block, the three row blocks, the `PAGE` tag of the checkpoint,
then `END`, with no exception — exactly three `ROW` frames in total. -/
theorem c4_abort_truncates (desc : List (String × Option String))
    (r1 r2 r3 r4 r5 r6 r7 : List SqlValue) (extra : List (List Nat))
    (h1 : (serializeRow r1).2 = none) (h2 : (serializeRow r2).2 = none)
    (h3 : (serializeRow r3).2 = none) :
    executeBody (lineOf "ABORT\n" :: extra)
        (QueryResult.results desc [r1, r2, r3, r4, r5, r6, r7]) =
      ⟨metadataFrames desc ++
          ((rowFrames r1 ++ (rowFrames r2 ++ (rowFrames r3 ++ [Frame.tag "PAGE"]))) ++
            [Frame.tag "END"]),
        extra, none⟩ ∧
    List.count (Frame.tag "ROW")
      (executeBody (lineOf "ABORT\n" :: extra)
        (QueryResult.results desc [r1, r2, r3, r4, r5, r6, r7])).frames = 3 := by
  have hloop : rowLoop (lineOf "ABORT\n" :: extra) 0 [r1, r2, r3, r4, r5, r6, r7] =
      ⟨rowFrames r1 ++ (rowFrames r2 ++ (rowFrames r3 ++ [Frame.tag "PAGE"])), extra,
        none⟩ := by
    rw [rowLoop_emit _ 0 (by decide) r1 _ h1, rowLoop_emit _ 1 (by decide) r2 _ h2,
      rowLoop_emit _ 2 (by decide) r3 _ h3,
      rowLoop_checkpoint (lineOf "ABORT\n") extra ("ABORT\n".toList) r4 _ rfl]
    rw [if_neg (by decide), if_pos (by rfl)]
    simp [rowFrames, List.cons_append, List.append_assoc]
  have hbody : executeBody (lineOf "ABORT\n" :: extra)
      (QueryResult.results desc [r1, r2, r3, r4, r5, r6, r7]) =
      ⟨metadataFrames desc ++
          ((rowFrames r1 ++ (rowFrames r2 ++ (rowFrames r3 ++ [Frame.tag "PAGE"]))) ++
            [Frame.tag "END"]),
        extra, none⟩ := by
    rw [executeBody_results_ok _ _ _ (by rw [hloop]), hloop]
  refine ⟨hbody, ?_⟩
  rw [hbody]
  simp [List.count_append, count_row_rowFrames,
    count_tag_metadataFrames desc "ROW" (by decide), List.count_cons, List.count_nil]

/-- Witness for C4 with seven one-column integer rows. -/
theorem c4_abort_truncates_witness :
    ((serializeRow [SqlValue.vint 1]).2 = none) ∧
    ((serializeRow [SqlValue.vint 2]).2 = none) ∧
    ((serializeRow [SqlValue.vint 3]).2 = none) ∧
    (executeBody (lineOf "ABORT\n" :: [])
        (QueryResult.results [("x", none)]
          [[SqlValue.vint 1], [SqlValue.vint 2], [SqlValue.vint 3], [SqlValue.vint 4],
            [SqlValue.vint 5], [SqlValue.vint 6], [SqlValue.vint 7]]) =
      ⟨metadataFrames [("x", none)] ++
          ((rowFrames [SqlValue.vint 1] ++ (rowFrames [SqlValue.vint 2] ++
            (rowFrames [SqlValue.vint 3] ++ [Frame.tag "PAGE"]))) ++ [Frame.tag "END"]),
        [], none⟩ ∧
    List.count (Frame.tag "ROW")
      (executeBody (lineOf "ABORT\n" :: [])
        (QueryResult.results [("x", none)]
          [[SqlValue.vint 1], [SqlValue.vint 2], [SqlValue.vint 3], [SqlValue.vint 4],
            [SqlValue.vint 5], [SqlValue.vint 6], [SqlValue.vint 7]])).frames = 3) :=
  ⟨rfl, rfl, rfl,
    c4_abort_truncates [("x", none)] [SqlValue.vint 1] [SqlValue.vint 2] [SqlValue.vint 3]
      [SqlValue.vint 4] [SqlValue.vint 5] [SqlValue.vint 6] [SqlValue.vint 7] [] rfl rfl rfl⟩

/-- Claim C7: when the reply to a `PAGE` checkpoint is neither `MORE`
nor `ABORT`, the loop raises
`ValueError('Expected MORE or ABORT in response to PAGE')`; no further
row is streamed, the command loop catches the exception and breaks —
tearing the session down (the `close()` lines are still reached) and
processing none of the remaining input. -/
theorem c7_bad_page_reply_fatal (engine : String → QueryResult) (q : String)
    (desc : List (String × Option String)) (r1 r2 r3 r4 : List SqlValue)
    (moreRows : List (List SqlValue)) (badLine : List Nat) (chars : List Char)
    (input extra : List (List Nat))
    (hrecv : recv_data input = Except.ok (q, badLine :: extra))
    (heng : engine q = QueryResult.results desc (r1 :: r2 :: r3 :: r4 :: moreRows))
    (h1 : (serializeRow r1).2 = none) (h2 : (serializeRow r2).2 = none)
    (h3 : (serializeRow r3).2 = none)
    (hline : asciiDecodeLine badLine = Except.ok chars)
    (hnm : ¬readTag chars = "MORE".toList) (hna : ¬readTag chars = "ABORT".toList) :
    execute_query engine input =
      ⟨metadataFrames desc ++
          (rowFrames r1 ++ (rowFrames r2 ++ (rowFrames r3 ++ [Frame.tag "PAGE"]))),
        extra, some (PyError.valueError "Expected MORE or ABORT in response to PAGE")⟩ ∧
    sessionLoop engine (lineOf "EXECUTE\n" :: input) =
      ⟨metadataFrames desc ++
          (rowFrames r1 ++ (rowFrames r2 ++ (rowFrames r3 ++ [Frame.tag "PAGE"]))),
        true⟩ := by
  have hloop : rowLoop (badLine :: extra) 0 (r1 :: r2 :: r3 :: r4 :: moreRows) =
      ⟨rowFrames r1 ++ (rowFrames r2 ++ (rowFrames r3 ++ [Frame.tag "PAGE"])), extra,
        some (PyError.valueError "Expected MORE or ABORT in response to PAGE")⟩ := by
    rw [rowLoop_emit _ 0 (by decide) r1 _ h1, rowLoop_emit _ 1 (by decide) r2 _ h2,
      rowLoop_emit _ 2 (by decide) r3 _ h3,
      rowLoop_checkpoint badLine extra chars r4 _ hline]
    rw [if_neg hnm, if_neg hna]
    simp [rowFrames, List.cons_append, List.append_assoc]
  have hexec : execute_query engine input =
      ⟨metadataFrames desc ++
          (rowFrames r1 ++ (rowFrames r2 ++ (rowFrames r3 ++ [Frame.tag "PAGE"]))),
        extra, some (PyError.valueError "Expected MORE or ABORT in response to PAGE")⟩ := by
    rw [execute_query, hrecv]
    dsimp only
    rw [heng]
    rw [executeBody_results_err _ _ _ _ (by rw [hloop]), hloop]
  refine ⟨hexec, ?_⟩
  rw [sessionLoop.eq_def]
  have ha : asciiDecodeLine (lineOf "EXECUTE\n") = Except.ok ("EXECUTE\n".toList) := rfl
  simp only [ha]
  have ht : readTag "EXECUTE\n".toList = "EXECUTE".toList := rfl
  rw [if_pos ht]
  simp only [hexec]

/-- Witness for C7: a four-row result whose checkpoint reply is the
unrecognized tag `NOPE`. -/
theorem c7_bad_page_reply_fatal_witness :
    (recv_data [lineBytes (send_data (utf8Encode "Q")), lineOf "NOPE\n"] =
      Except.ok ("Q", [lineOf "NOPE\n"])) ∧
    ((fun _ => QueryResult.results [("x", none)]
        [[SqlValue.vint 1], [SqlValue.vint 2], [SqlValue.vint 3], [SqlValue.vint 4]]) "Q" =
      QueryResult.results [("x", none)]
        ([SqlValue.vint 1] :: [SqlValue.vint 2] :: [SqlValue.vint 3] :: [SqlValue.vint 4] :: [])) ∧
    (asciiDecodeLine (lineOf "NOPE\n") = Except.ok ("NOPE\n".toList)) ∧
    (¬readTag "NOPE\n".toList = "MORE".toList) ∧
    (¬readTag "NOPE\n".toList = "ABORT".toList) ∧
    (execute_query
        (fun _ => QueryResult.results [("x", none)]
          [[SqlValue.vint 1], [SqlValue.vint 2], [SqlValue.vint 3], [SqlValue.vint 4]])
        [lineBytes (send_data (utf8Encode "Q")), lineOf "NOPE\n"] =
      ⟨metadataFrames [("x", none)] ++
          (rowFrames [SqlValue.vint 1] ++ (rowFrames [SqlValue.vint 2] ++
            (rowFrames [SqlValue.vint 3] ++ [Frame.tag "PAGE"]))),
        [], some (PyError.valueError "Expected MORE or ABORT in response to PAGE")⟩ ∧
    sessionLoop
        (fun _ => QueryResult.results [("x", none)]
          [[SqlValue.vint 1], [SqlValue.vint 2], [SqlValue.vint 3], [SqlValue.vint 4]])
        (lineOf "EXECUTE\n" :: [lineBytes (send_data (utf8Encode "Q")), lineOf "NOPE\n"]) =
      ⟨metadataFrames [("x", none)] ++
          (rowFrames [SqlValue.vint 1] ++ (rowFrames [SqlValue.vint 2] ++
            (rowFrames [SqlValue.vint 3] ++ [Frame.tag "PAGE"]))),
        true⟩) :=
  ⟨rfl, rfl, rfl, by decide, by decide,
    c7_bad_page_reply_fatal _ "Q" [("x", none)] [SqlValue.vint 1] [SqlValue.vint 2]
      [SqlValue.vint 3] [SqlValue.vint 4] [] (lineOf "NOPE\n") ("NOPE\n".toList)
      [lineBytes (send_data (utf8Encode "Q")), lineOf "NOPE\n"] [] rfl rfl rfl rfl rfl rfl
      (by decide) (by decide)⟩

/-- Claim C3: under an always-`MORE` peer, the paginated stream is the
rows in order with a `PAGE` checkpoint exactly after every third row as
long as more rows follow (the shape of `expectedPaged`), ending with
`END`; the number of `PAGE` tags is `(n - 1) / 3` for `n` rows — so no
checkpoint at all for 3 or fewer rows, and exactly two (after rows 3
and 6) for the 7-row scenario. -/
theorem c3_pagination_checkpoints (desc : List (String × Option String))
    (rows : List (List SqlValue)) (m : Nat)
    (hser : ∀ row ∈ rows, (serializeRow row).2 = none) (hm : rows.length ≤ m) :
    executeBody (List.replicate m moreLine) (QueryResult.results desc rows) =
      ⟨metadataFrames desc ++ (expectedPaged rows ++ [Frame.tag "END"]),
        List.replicate (m - pagesOf rows.length) moreLine, none⟩ ∧
    List.count (Frame.tag "PAGE")
      (executeBody (List.replicate m moreLine) (QueryResult.results desc rows)).frames =
        (rows.length - 1) / 3 := by
  have hall := rowLoop_allMore rows m hser hm
  have hbody : executeBody (List.replicate m moreLine) (QueryResult.results desc rows) =
      ⟨metadataFrames desc ++ (expectedPaged rows ++ [Frame.tag "END"]),
        List.replicate (m - pagesOf rows.length) moreLine, none⟩ := by
    rw [executeBody_results_ok _ _ _ (by rw [hall]), hall]
  refine ⟨hbody, ?_⟩
  rw [hbody]
  simp only [List.count_append, count_page_expectedPaged,
    count_tag_metadataFrames desc "PAGE" (by decide), pagesOf]
  simp [List.count_cons, List.count_nil]

/-- Witness for C3: seven one-column integer rows with seven `MORE`
lines queued. -/
theorem c3_pagination_checkpoints_witness :
    (∀ row ∈ [[SqlValue.vint 1], [SqlValue.vint 2], [SqlValue.vint 3], [SqlValue.vint 4],
        [SqlValue.vint 5], [SqlValue.vint 6], [SqlValue.vint 7]],
      (serializeRow row).2 = none) ∧
    ([[SqlValue.vint 1], [SqlValue.vint 2], [SqlValue.vint 3], [SqlValue.vint 4],
        [SqlValue.vint 5], [SqlValue.vint 6], [SqlValue.vint 7]].length ≤ 7) ∧
    (executeBody (List.replicate 7 moreLine)
        (QueryResult.results [("x", none)]
          [[SqlValue.vint 1], [SqlValue.vint 2], [SqlValue.vint 3], [SqlValue.vint 4],
            [SqlValue.vint 5], [SqlValue.vint 6], [SqlValue.vint 7]]) =
      ⟨metadataFrames [("x", none)] ++
          (expectedPaged
            [[SqlValue.vint 1], [SqlValue.vint 2], [SqlValue.vint 3], [SqlValue.vint 4],
              [SqlValue.vint 5], [SqlValue.vint 6], [SqlValue.vint 7]] ++ [Frame.tag "END"]),
        List.replicate (7 - pagesOf
          [[SqlValue.vint 1], [SqlValue.vint 2], [SqlValue.vint 3], [SqlValue.vint 4],
            [SqlValue.vint 5], [SqlValue.vint 6], [SqlValue.vint 7]].length) moreLine,
        none⟩ ∧
    List.count (Frame.tag "PAGE")
      (executeBody (List.replicate 7 moreLine)
        (QueryResult.results [("x", none)]
          [[SqlValue.vint 1], [SqlValue.vint 2], [SqlValue.vint 3], [SqlValue.vint 4],
            [SqlValue.vint 5], [SqlValue.vint 6], [SqlValue.vint 7]])).frames =
        ([[SqlValue.vint 1], [SqlValue.vint 2], [SqlValue.vint 3], [SqlValue.vint 4],
            [SqlValue.vint 5], [SqlValue.vint 6], [SqlValue.vint 7]].length - 1) / 3) :=
  ⟨by decide, by decide,
    c3_pagination_checkpoints [("x", none)]
      [[SqlValue.vint 1], [SqlValue.vint 2], [SqlValue.vint 3], [SqlValue.vint 4],
        [SqlValue.vint 5], [SqlValue.vint 6], [SqlValue.vint 7]] 7 (by decide) (by decide)⟩

/-- Claim C8 counterexample: the claim includes protocol/framing faults
among the terminations after which both `close()` calls run.  But a
command line containing the non-ascii byte `0x80` makes
`next(server_recv)` raise `UnicodeDecodeError` at the command read,
which only `StopIteration` is guarded against: the exception propagates
out of the loop and `server.close()` / `db.close()` are never
reached. -/
theorem c8_counterexample :
    (main (fun _ => QueryResult.mutation 0) [[128]]).closed = false := by
  show (sessionLoop (fun _ => QueryResult.mutation 0) [[128]]).closed = false
  rw [sessionLoop.eq_def]
  rfl

/-- Claim C8 (amended): on session termination by clean peer close, an
unrecognized command, or any exception raised while a command handler
runs, the loop exits by `break` and both `server.close()` and
`db.close()` are executed — in particular whenever every incoming line
is pure ascii.  However, a command line that the ascii codec rejects
raises at the command read itself, outside the handler `try`, and the
`close()` calls are skipped. -/
theorem c8_close_on_termination (engine : String → QueryResult) (input : List (List Nat))
    (h : ∀ l ∈ input, ∀ b ∈ l, b < 128) : (main engine input).closed = true := by
  show (sessionLoop engine input).closed = true
  exact sessionLoop_ascii_closed engine input h

/-- Witness for C8: a session whose only command is the unrecognized
ascii tag `PING`. -/
theorem c8_close_on_termination_witness :
    (∀ l ∈ [lineOf "PING\n"], ∀ b ∈ l, b < 128) ∧
    (main (fun _ => QueryResult.mutation 0) [lineOf "PING\n"]).closed = true :=
  ⟨by decide, c8_close_on_termination (fun _ => QueryResult.mutation 0) [lineOf "PING\n"]
    (by decide)⟩

end SqliteServer
